import Mathlib

/-!
Shallow embedding of the collection subsystem of the plexgo SDK
(the file implementing the `Collections` service: entity model, smart flag
coercion, mode and sort wire tables, smart filter URI construction,
membership mutation operations, and creation identity resolution).

Go strings are modeled as `String` where only equality matters and as
`List Char` where byte-level structure (prefix tests, scanning) matters.
Network-effecting operations are modeled as functions from an explicit
server model to a result together with the full ordered trace of HTTP
requests they issue, assuming transport succeeds and the server answers
each request as the model describes (the happy path of the Go transport
plumbing; hooks are identity). Requests with method PUT, POST or DELETE
are the mutations; GET requests are reads.
-/

set_option autoImplicit false

namespace Plexgo

/-- Dynamic value of the polymorphic `smart` JSON field (Go `interface{}`).
The source inspects it with a type switch over `bool`, `string`, `float64`
and `int`; every other dynamic type, including an absent field (zero value
`nil`), falls to the `default` branch. JSON numbers decode to `float64`;
the comparison `v > 0` performed by the source is modeled over `ℚ`, which
agrees with the IEEE comparison on all decodable JSON numbers. -/
inductive SmartValue where
  | boolVal (b : Bool)
  | strVal (s : String)
  | floatVal (q : ℚ)
  | intVal (n : Int)
  | absent
  deriving DecidableEq, Repr

/-- The `Collection` struct of the source. Field defaults are the Go zero
values. `collectionItems` carries the `json:"-"` slice of rating keys. -/
structure Collection where
  ratingKey : String := ""
  key : String := ""
  guid : String := ""
  title : String := ""
  titleSort : String := ""
  summary : String := ""
  smart : SmartValue := .absent
  addedAt : Int := 0
  updatedAt : Int := 0
  contentRating : String := ""
  thumb : String := ""
  art : String := ""
  childCount : Int := 0
  collectionMode : String := ""
  collectionSort : String := ""
  sectionID : Int := 0
  sectionTitle : String := ""
  sectionUUID : String := ""
  type : String := ""
  subType : String := ""
  collectionItems : List String := []
  deriving DecidableEq, Repr

/-- `IsSmartCollection` of the source: boolean passthrough, string equal to
"1" or "true", numeric (float64 or int) strictly greater than 0; anything
else false. -/
def Collection.IsSmartCollection (c : Collection) : Bool :=
  match c.smart with
  | .boolVal v => v
  | .strVal v => v == "1" || v == "true"
  | .floatVal v => decide (v > 0)
  | .intVal v => decide (v > 0)
  | .absent => false

/-- CollectionMode string constant of the source. -/
def CollectionModeDefault : String := "default"

/-- CollectionMode string constant of the source. -/
def CollectionModeHide : String := "hide"

/-- CollectionMode string constant of the source. -/
def CollectionModeHideItems : String := "hideItems"

/-- CollectionMode string constant of the source. -/
def CollectionModeShowItems : String := "showItems"

/-- CollectionSort string constant of the source. -/
def CollectionSortRelease : String := "release"

/-- CollectionSort string constant of the source. -/
def CollectionSortAlpha : String := "alpha"

/-- CollectionSort string constant of the source. -/
def CollectionSortCustom : String := "custom"

/-- `CollectionModeKeys`, the Go map from Plex numeric mode values to string
constants, as an association list. -/
def CollectionModeKeys : List (Int × String) :=
  [(-1, CollectionModeDefault), (0, CollectionModeHide),
   (1, CollectionModeHideItems), (2, CollectionModeShowItems)]

/-- `CollectionSortKeys`, the Go map from Plex numeric sort values to string
constants, as an association list. -/
def CollectionSortKeys : List (Int × String) :=
  [(0, CollectionSortRelease), (1, CollectionSortAlpha), (2, CollectionSortCustom)]

/-- The translation loop of `UpdateCollectionMode`: scan `CollectionModeKeys`
for the entry whose value equals `mode` (the map values are pairwise
distinct, so the randomized Go map iteration order is immaterial) and take
its key; fall back to `-1` when no entry matches. -/
def modeWireValue (mode : String) : Int :=
  match CollectionModeKeys.find? (fun kv => kv.2 == mode) with
  | some kv => kv.1
  | none => -1

/-- The translation loop of `UpdateCollectionSort`: like `modeWireValue`
over `CollectionSortKeys`, falling back to `0` (release). -/
def sortWireValue (sort : String) : Int :=
  match CollectionSortKeys.find? (fun kv => kv.2 == sort) with
  | some kv => kv.1
  | none => 0

/-- Lookup of `CollectionModeKeys` in its native direction (wire code to
string constant), as Go map indexing. -/
def modeFromWire (code : Int) : Option String :=
  (CollectionModeKeys.find? (fun kv => kv.1 == code)).map (fun kv => kv.2)

/-- Lookup of `CollectionSortKeys` in its native direction. -/
def sortFromWire (code : Int) : Option String :=
  (CollectionSortKeys.find? (fun kv => kv.1 == code)).map (fun kv => kv.2)

/-- Go `strings.HasPrefix s pre` on strings viewed as character sequences:
`len(s) >= len(pre) && s[0:len(pre)] == pre`. -/
def leadsWith (s pre : List Char) : Bool :=
  pre.isPrefixOf s

/-- The query normalization shared by `BuildSmartFilterURI`,
`TestSmartFilter` and `CreateSmartCollection`:
`if !strings.HasPrefix(filterQuery, "?") { filterQuery = "?" + filterQuery }`. -/
def normalizeFilterQuery (q : List Char) : List Char :=
  if leadsWith q (("?").toList) then q else ("?").toList ++ q

/-- `BuildSmartFilterURI`:
`fmt.Sprintf("%s/library/sections/%d/all%s", baseURL, sectionID, filterQuery)`
after normalizing the filter query. -/
def BuildSmartFilterURI (baseURL : List Char) (sectionID : Int) (filterQuery : List Char) :
    List Char :=
  baseURL ++ ("/library/sections/").toList ++ (toString sectionID).toList
    ++ ("/all").toList ++ normalizeFilterQuery filterQuery

/-- An HTTP request issued by the SDK, recorded as method, path, and query
parameters (base URL omitted: it is fixed configuration). -/
structure Request where
  method : String
  path : String
  query : List (String × String)
  deriving DecidableEq, Repr

/-- A request mutates server state exactly when its method is PUT, POST or
DELETE; GET requests are reads. -/
def Request.isMutation (r : Request) : Bool :=
  r.method == "PUT" || r.method == "POST" || r.method == "DELETE"

/-- The status filter `utils.MatchStatusCodes([]string{"400", "401", "404",
"4XX", "5XX"}, code)` applied to every response. Modelled from the spec:
the internal utils package is not among the sources; per the spec error
taxonomy, remote rejection covers the listed codes and the 4XX and 5XX
classes. -/
def MatchStatusCodes (code : Nat) : Bool :=
  code == 400 || code == 401 || code == 404 ||
    (decide (400 ≤ code) && decide (code ≤ 499)) ||
    (decide (500 ≤ code) && decide (code ≤ 599))

/-- The observable state of the remote Plex server relevant to the
membership operations: the detail record answered by GetCollection, the
current item membership (deciding the per-item DELETE status), the machine
identifier answered by the identity endpoint, and whether a filter query
matches at least one item of a section (the TestSmartFilter outcome). -/
structure PlexServer where
  coll : Collection
  membership : List String
  machineID : String
  filterHasResults : Int → String → Bool

/-- The initial detail fetch `GetCollection`: GET /library/collections/{id}. -/
def getCollectionRequest (collectionID : Int) : Request :=
  { method := "GET", path := ("/library/collections/") ++ toString collectionID, query := [] }

/-- The machine identifier fetch `getServerIdentity`: GET /identity. -/
def identityRequest : Request :=
  { method := "GET", path := "/identity", query := [] }

/-- The bulk add issued by `AddToCollection`:
PUT /library/collections/{id}/items?uri=server://{machineID}/com.plexapp.plugins.library/library/metadata/{keys}
where keys is `strings.Join(itemIDs, ",")`. -/
def addItemsRequest (collectionID : Int) (machineID : String) (itemIDs : List String) :
    Request :=
  { method := "PUT"
    path := ("/library/collections/") ++ toString collectionID ++ ("/items")
    query := [(("uri"), ("server://") ++ machineID
      ++ ("/com.plexapp.plugins.library/library/metadata/")
      ++ String.intercalate (",") itemIDs)] }

/-- The per-item removal issued by `RemoveFromCollection`:
DELETE /library/collections/{id}/items/{itemID}. -/
def deleteItemRequest (collectionID : Int) (itemID : String) : Request :=
  { method := "DELETE"
    path := ("/library/collections/") ++ toString collectionID ++ ("/items/") ++ itemID
    query := [] }

/-- The reposition issued by `MoveCollectionItem`:
PUT /library/collections/{id}/items/{itemID}/move, with an `after`
parameter exactly when `afterItemID` is nonempty. -/
def moveItemRequest (collectionID : Int) (itemID afterItemID : String) : Request :=
  { method := "PUT"
    path := ("/library/collections/") ++ toString collectionID ++ ("/items/")
      ++ itemID ++ ("/move")
    query := if afterItemID == ("") then [] else [(("after"), afterItemID)] }

/-- The validation read issued by `TestSmartFilter`:
GET /library/sections/{sectionID}/all{query}. -/
def testFilterRequest (sectionID : Int) (query : String) : Request :=
  { method := "GET"
    path := ("/library/sections/") ++ toString sectionID ++ ("/all") ++ query
    query := [] }

/-- The filter update issued by `UpdateSmartCollection`:
PUT /library/collections/{id}/items?uri={filterURI}. -/
def updateItemsRequest (collectionID : Int) (filterURI : String) : Request :=
  { method := "PUT"
    path := ("/library/collections/") ++ toString collectionID ++ ("/items")
    query := [(("uri"), filterURI)] }

/-- `AddToCollection` run against `srv`: fetch the collection detail,
reject smart collections, return early on an empty item list, then fetch
the machine identifier and issue a single bulk PUT referencing all the
requested IDs. The source performs no membership fetch and no filtering of
already-present IDs. The result is paired with the ordered request trace. -/
def AddToCollection (srv : PlexServer) (collectionID : Int) (itemIDs : List String) :
    Except String Unit × List Request :=
  let getReq := getCollectionRequest collectionID
  let collection := srv.coll
  if collection.IsSmartCollection then
    (Except.error ("cannot manually add items to a smart collection"), [getReq])
  else if itemIDs.length == 0 then
    (Except.ok (), [getReq])
  else
    (Except.ok (), [getReq, identityRequest, addItemsRequest collectionID srv.machineID itemIDs])

/-- The per-item DELETE loop of `RemoveFromCollection`. Each item is
removed with its own DELETE; the modeled server answers 200 when the item
is currently a member and 404 otherwise. A 404 is explicitly tolerated
(the item was already absent); any other matched error status aborts the
loop with an SDK error. -/
def removeItemsLoop (srv : PlexServer) (collectionID : Int) :
    List String → List Request → Except String Unit × List Request
  | [], acc => (Except.ok (), acc)
  | itemID :: rest, acc =>
    let delReq := deleteItemRequest collectionID itemID
    let status : Nat := if srv.membership.contains itemID then 200 else 404
    if MatchStatusCodes status then
      if status != 404 then
        (Except.error ("API error occurred"), acc ++ [delReq])
      else
        removeItemsLoop srv collectionID rest (acc ++ [delReq])
    else
      removeItemsLoop srv collectionID rest (acc ++ [delReq])

/-- `RemoveFromCollection` run against `srv`: fetch the collection detail,
reject smart collections, return early on an empty item list, then issue
one DELETE per requested item. The source performs no membership fetch and
no short-circuit for absent IDs. -/
def RemoveFromCollection (srv : PlexServer) (collectionID : Int) (itemIDs : List String) :
    Except String Unit × List Request :=
  let getReq := getCollectionRequest collectionID
  if srv.coll.IsSmartCollection then
    (Except.error ("cannot manually remove items from a smart collection"), [getReq])
  else if itemIDs.length == 0 then
    (Except.ok (), [getReq])
  else
    removeItemsLoop srv collectionID itemIDs [getReq]

/-- `MoveCollectionItem` run against `srv`: fetch the collection detail,
reject smart collections, then issue the positional PUT. -/
def MoveCollectionItem (srv : PlexServer) (collectionID : Int) (itemID afterItemID : String) :
    Except String Unit × List Request :=
  let getReq := getCollectionRequest collectionID
  if srv.coll.IsSmartCollection then
    (Except.error ("cannot manually move items in a smart collection"), [getReq])
  else
    (Except.ok (), [getReq, moveItemRequest collectionID itemID afterItemID])

/-- Everything before the first "?" of a URI (the pre-query part seen by
`url.Parse` for the URI shapes used here). -/
def uriBeforeQuery (uri : String) : String :=
  (uri.splitOn ("?")).headD ("")

/-- The RawQuery component of `url.Parse` for the URI shapes used here:
everything after the first "?". -/
def uriRawQuery (uri : String) : String :=
  String.intercalate ("?") ((uri.splitOn ("?")).tail)

/-- The Path component of `url.Parse` for the URI shapes used here: the
pre-query part, with a scheme://host head stripped when present. Modelled
from the spec at the interface boundary: net/url is generic plumbing
outside the sources. -/
def uriPath (uri : String) : String :=
  let p := uriBeforeQuery uri
  match p.splitOn ("://") with
  | [_scheme, hostAndPath] =>
    match hostAndPath.splitOn ("/") with
    | [] => ("")
    | _host :: segs => ("/") ++ String.intercalate ("/") segs
  | _ => p

/-- Decimal value of a digit string, most significant digit first. -/
def digitsVal (ds : List Char) : Nat :=
  ds.foldl (fun acc c => acc * 10 + (c.toNat - ('0').toNat)) 0

/-- A nonempty all-digit string parses to its decimal value. -/
def parseDigits (ds : List Char) : Option Nat :=
  if ds.isEmpty then none
  else if ds.all (fun c => c.isDigit) then some (digitsVal ds) else none

/-- `strconv.Atoi`: an optional single sign followed by a nonempty run of
decimal digits (integer overflow, irrelevant to the claims, is not
modeled). -/
def goAtoi : List Char → Option Int
  | '+' :: ds => (parseDigits ds).map (fun n => (n : Int))
  | '-' :: ds => (parseDigits ds).map (fun n => -(n : Int))
  | ds => (parseDigits ds).map (fun n => (n : Int))

/-- `strconv.Atoi` on a Lean string. -/
def goAtoiStr (s : String) : Option Int :=
  goAtoi s.data

/-- The section extraction loop of `UpdateSmartCollection`: walk the path
parts looking for a part equal to "sections" whose successor parses with
`strconv.Atoi`; on a parse failure the loop keeps scanning; on success it
stops with that section ID. -/
def findSectionID : List String → Option Int
  | [] => none
  | part :: rest =>
    if part == ("sections") then
      match rest with
      | next :: _ =>
        match goAtoiStr next with
        | some n => some n
        | none => findSectionID rest
      | [] => none
    else
      findSectionID rest

/-- `UpdateSmartCollection` run against `srv`: fetch the collection
detail, reject non-smart collections with a locally raised capability
error, then best-effort parse the filter URI for a section ID; when one is
found, validate the filter with `TestSmartFilter` and abort when it
matches nothing; finally issue the update PUT. -/
def UpdateSmartCollection (srv : PlexServer) (collectionID : Int) (filterURI : String) :
    Except String Unit × List Request :=
  let getReq := getCollectionRequest collectionID
  if !srv.coll.IsSmartCollection then
    (Except.error ("cannot update smart filter for a non-smart collection"), [getReq])
  else
    let putReq := updateItemsRequest collectionID filterURI
    if uriPath filterURI == ("") then
      (Except.ok (), [getReq, putReq])
    else
      match findSectionID ((uriPath filterURI).splitOn ("/")) with
      | some sectionID =>
        let query := ("?") ++ uriRawQuery filterURI
        let testReq := testFilterRequest sectionID query
        if srv.filterHasResults sectionID query then
          (Except.ok (), [getReq, testReq, putReq])
        else
          (Except.error (("smart filter returned no results: ") ++ query), [getReq, testReq])
      | none =>
        (Except.ok (), [getReq, putReq])

/-- The query parameters `CreateCollection` attaches to the creation POST,
in the order the source adds them. The branch for a non-empty item list
computes the comma-separated itemList, but its `queryParams.Add("uri", ...)`
line is commented out in the source, so that branch adds no uri parameter;
only the empty-list branch adds `uri = baseURL + "/library/metadata"`. -/
def createCollectionQueryParams (baseURL : String) (sectionID : Int) (title : String)
    (itemIDs : List String) : List (String × String) :=
  let base := [(("type"), ("1")), (("title"), title), (("smart"), ("0")),
    (("sectionId"), toString sectionID)]
  if itemIDs.length > 0 then base
  else base ++ [(("uri"), baseURL ++ ("/library/metadata"))]

/-- The literal format prefix of the Location header scan
`fmt.Sscanf(location, "/library/collections/%s", &collectionIDStr)`. -/
def locationStem : List Char :=
  ("/library/collections/").toList

/-- The Location header scan of `CreateCollection` and
`CreateSmartCollection`: the literal prefix must match, then `%s` skips
leading whitespace and reads a maximal nonempty run of non-whitespace
characters; scanning fails otherwise. -/
def scanLocationID (location : List Char) : Option (List Char) :=
  if leadsWith location locationStem then
    let rest := location.drop locationStem.length
    let tok := (rest.dropWhile (fun c => c.isWhitespace)).takeWhile (fun c => !c.isWhitespace)
    if tok.isEmpty then none else some tok
  else none

/-- The identity-resolution block shared verbatim by `CreateCollection` and
`CreateSmartCollection`: when the Location header is nonempty, scan it and
convert with `strconv.Atoi`, turning each failure into an error; only when
the header is the empty string is the response body consulted, taking the
rating key of its first metadata entry. -/
def resolveCreatedCollectionID (location : List Char) (bodyMetadata : List Collection) :
    Except String Int :=
  if !location.isEmpty then
    match scanLocationID location with
    | none => Except.error ("error parsing collection ID from location header")
    | some idStr =>
      match goAtoi idStr with
      | none => Except.error ("error converting collection ID to int")
      | some n => Except.ok n
  else
    match bodyMetadata with
    | [] => Except.error ("no collection created or returned in response")
    | c :: _ =>
      match goAtoi c.ratingKey.data with
      | none => Except.error ("error converting collection ID to int")
      | some n => Except.ok n

/-- A concrete non-smart collection (smart field absent, as the unit tests
of the repository return it). -/
def sampleNonSmart : Collection :=
  { ratingKey := "13", title := "Test Collection", sectionID := 1, type := "collection" }

/-- A concrete smart collection (smart field the string "1"). -/
def sampleSmart : Collection :=
  { ratingKey := "7", title := "Smart Collection", sectionID := 1, type := "collection",
    smart := .strVal "1" }

/-- A server holding the non-smart collection with membership {"100"}. -/
def srvNonSmart : PlexServer :=
  { coll := sampleNonSmart, membership := ["100"], machineID := "abc123",
    filterHasResults := fun _ _ => true }

/-- A server holding the smart collection. -/
def srvSmart : PlexServer :=
  { coll := sampleSmart, membership := [], machineID := "abc123",
    filterHasResults := fun _ _ => true }

end Plexgo

namespace Plexgo

/-! Helper lemmas shared by the claim theorems. -/

/-- dropWhile is the identity on a list none of whose elements satisfy the
predicate. -/
theorem dropWhile_eq_self_of_all_not {p : Char → Bool} (l : List Char)
    (h : l.all (fun c => !p c) = true) : l.dropWhile p = l := by
  cases l with
  | nil => rfl
  | cons c cs =>
    simp only [List.all_cons, Bool.and_eq_true, Bool.not_eq_true'] at h
    simp [List.dropWhile_cons, h.1]

/-- takeWhile is the identity on a list all of whose elements satisfy the
predicate. -/
theorem takeWhile_eq_self_of_all {p : Char → Bool} (l : List Char)
    (h : l.all p = true) : l.takeWhile p = l := by
  induction l with
  | nil => rfl
  | cons c cs ih =>
    simp only [List.all_cons, Bool.and_eq_true] at h
    simp [List.takeWhile_cons, h.1, ih h.2]

/-- Claim C6: for every value of the polymorphic smart field,
`IsSmartCollection` returns true exactly when the value is boolean true, a
numeric (float64 or int) value strictly greater than 0, or the exact
strings "1" or "true"; for every other value (boolean false, other
strings, non-positive numerics, absent field) it returns false. -/
theorem isSmartCollection_characterization (c : Collection) :
    c.IsSmartCollection = true ↔
      (c.smart = SmartValue.boolVal true ∨
       c.smart = SmartValue.strVal ("1") ∨
       c.smart = SmartValue.strVal ("true") ∨
       (∃ q : ℚ, 0 < q ∧ c.smart = SmartValue.floatVal q) ∨
       (∃ n : Int, 0 < n ∧ c.smart = SmartValue.intVal n)) := by
  cases h : c.smart with
  | boolVal b =>
    cases b <;> simp [Collection.IsSmartCollection, h]
  | strVal s =>
    simp only [Collection.IsSmartCollection, h]
    constructor
    · intro hs
      rcases Bool.or_eq_true_iff.mp hs with h1 | h1
      · exact Or.inr (Or.inl (by simpa using congrArg SmartValue.strVal (eq_of_beq h1)))
      · exact Or.inr (Or.inr (Or.inl (by simpa using congrArg SmartValue.strVal (eq_of_beq h1))))
    · rintro (h1 | h1 | h1 | ⟨q, _, h1⟩ | ⟨n, _, h1⟩) <;> simp_all
  | floatVal q =>
    simp [Collection.IsSmartCollection, h]
  | intVal n =>
    simp [Collection.IsSmartCollection, h]
  | absent =>
    simp [Collection.IsSmartCollection, h]

/-- Claim C8: every documented mode and sort string constant round-trips
through its wire integer code back to itself, and any string outside the
tables translates to the default code (`-1` for mode, `0` for sort)
without raising an error. -/
theorem mode_sort_round_trip :
    (∀ code s, (code, s) ∈ CollectionModeKeys → modeFromWire (modeWireValue s) = some s) ∧
    (∀ code s, (code, s) ∈ CollectionSortKeys → sortFromWire (sortWireValue s) = some s) ∧
    (∀ s, s ∉ CollectionModeKeys.map Prod.snd → modeWireValue s = -1) ∧
    (∀ s, s ∉ CollectionSortKeys.map Prod.snd → sortWireValue s = 0) := by
  refine ⟨?_, ?_, ?_, ?_⟩
  · intro code s h
    fin_cases h <;> decide
  · intro code s h
    fin_cases h <;> decide
  · intro s h
    simp only [CollectionModeKeys, CollectionModeDefault, CollectionModeHide,
      CollectionModeHideItems, CollectionModeShowItems, List.map, List.mem_cons,
      List.not_mem_nil, or_false, not_or] at h
    obtain ⟨h1, h2, h3, h4⟩ := h
    have e1 : ((("default") : String) == s) = false := beq_eq_false_iff_ne.mpr (Ne.symm h1)
    have e2 : ((("hide") : String) == s) = false := beq_eq_false_iff_ne.mpr (Ne.symm h2)
    have e3 : ((("hideItems") : String) == s) = false := beq_eq_false_iff_ne.mpr (Ne.symm h3)
    have e4 : ((("showItems") : String) == s) = false := beq_eq_false_iff_ne.mpr (Ne.symm h4)
    simp [modeWireValue, CollectionModeKeys, CollectionModeDefault, CollectionModeHide,
      CollectionModeHideItems, CollectionModeShowItems, List.find?, e1, e2, e3, e4]
  · intro s h
    simp only [CollectionSortKeys, CollectionSortRelease, CollectionSortAlpha,
      CollectionSortCustom, List.map, List.mem_cons, List.not_mem_nil, or_false,
      not_or] at h
    obtain ⟨h1, h2, h3⟩ := h
    have e1 : ((("release") : String) == s) = false := beq_eq_false_iff_ne.mpr (Ne.symm h1)
    have e2 : ((("alpha") : String) == s) = false := beq_eq_false_iff_ne.mpr (Ne.symm h2)
    have e3 : ((("custom") : String) == s) = false := beq_eq_false_iff_ne.mpr (Ne.symm h3)
    simp [sortWireValue, CollectionSortKeys, CollectionSortRelease, CollectionSortAlpha,
      CollectionSortCustom, List.find?, e1, e2, e3]

/-- Witness for claim C8 at concrete inputs: the constants "hideItems" and
"alpha" round-trip, and the unknown string "bogus" falls back to the
default codes. -/
theorem mode_sort_round_trip_witness :
    modeFromWire (modeWireValue ("hideItems")) = some ("hideItems") ∧
    sortFromWire (sortWireValue ("alpha")) = some ("alpha") ∧
    modeWireValue ("bogus") = -1 ∧
    sortWireValue ("bogus") = 0 :=
  ⟨mode_sort_round_trip.1 1 ("hideItems") (by decide),
   mode_sort_round_trip.2.1 1 ("alpha") (by decide),
   mode_sort_round_trip.2.2.1 ("bogus") (by decide),
   mode_sort_round_trip.2.2.2 ("bogus") (by decide)⟩

/-- Claim C7 counterexample: the input query "??genre=action" already starts
with a question mark, yet the produced URI carries a double "??" after
"/all", so the query component is not prefixed with exactly one question
mark for every input. -/
theorem buildSmartFilterURI_double_question :
    BuildSmartFilterURI (("http://plex").toList) 1 (("??genre=action").toList) =
      ("http://plex/library/sections/1/all??genre=action").toList ∧
    leadsWith (normalizeFilterQuery (("??genre=action").toList)) (("??").toList) = true := by
  decide

/-- Claim C7 (amended): for every section ID and every input filter query
that does not already begin with a double "??", the URI produced by
`BuildSmartFilterURI` has its query component prefixed with exactly one
question mark (never "??", never missing); and for every query not
starting with "?" the original equation
`BuildSmartFilterURI sectionID q = BuildSmartFilterURI sectionID ("?" ++ q)`
holds. Inputs already beginning with "??" are passed through unchanged:
the code guarantees at least one leading "?" but never strips a second. -/
theorem buildSmartFilterURI_single_question (baseURL : List Char) (sectionID : Int)
    (q : List Char) (h : leadsWith q (("??").toList) = false) :
    (∃ rest, BuildSmartFilterURI baseURL sectionID q =
        baseURL ++ ("/library/sections/").toList ++ (toString sectionID).toList
          ++ ("/all").toList ++ ('?' :: rest) ∧
        leadsWith rest (("?").toList) = false) ∧
    (leadsWith q (("?").toList) = false →
      BuildSmartFilterURI baseURL sectionID q =
        BuildSmartFilterURI baseURL sectionID (("?").toList ++ q)) := by
  constructor
  · match q, h with
    | [], _ =>
      exact ⟨[], by simp [BuildSmartFilterURI, normalizeFilterQuery, leadsWith,
        List.isPrefixOf], by decide⟩
    | c :: cs, h =>
      by_cases hc : c = '?'
      · subst hc
        refine ⟨cs, ?_, ?_⟩
        · simp [BuildSmartFilterURI, normalizeFilterQuery, leadsWith, List.isPrefixOf]
        · simpa [leadsWith, List.isPrefixOf] using h
      · refine ⟨c :: cs, ?_, ?_⟩
        · simp [BuildSmartFilterURI, normalizeFilterQuery, leadsWith, List.isPrefixOf,
            Ne.symm hc]
        · simp [leadsWith, List.isPrefixOf, Ne.symm hc]
  · intro hq
    have hq2 : ¬ (['?'] <+: q) := by
      intro hp
      rw [← List.isPrefixOf_iff_prefix] at hp
      simp [leadsWith, hp] at hq
    simp [BuildSmartFilterURI, normalizeFilterQuery, leadsWith, List.isPrefixOf, hq, hq2]

/-- Witness for claim C7 at the concrete query "genre=action" and section 2. -/
theorem buildSmartFilterURI_single_question_witness :
    (∃ rest, BuildSmartFilterURI (("http://plex").toList) 2 (("genre=action").toList) =
        (("http://plex").toList) ++ ("/library/sections/").toList
          ++ (toString (2 : Int)).toList ++ ("/all").toList ++ ('?' :: rest) ∧
        leadsWith rest (("?").toList) = false) ∧
    (leadsWith (("genre=action").toList) (("?").toList) = false →
      BuildSmartFilterURI (("http://plex").toList) 2 (("genre=action").toList) =
        BuildSmartFilterURI (("http://plex").toList) 2
          (("?").toList ++ ("genre=action").toList)) :=
  buildSmartFilterURI_single_question (("http://plex").toList) 2 (("genre=action").toList)
    (by decide)

/-- Claim C2 evaluated at the failing input: the creation POST for a
non-empty item-ID list carries no uri parameter at all (the source line
adding it is commented out), while the empty-list call still gets the
empty-collection uri. -/
theorem createCollection_uri_missing_on_nonempty :
    (createCollectionQueryParams ("http://plex") 1 ("New Collection")
        [("1234"), ("5678")]).lookup ("uri") = none ∧
    (createCollectionQueryParams ("http://plex") 1 ("Empty") []).lookup ("uri") =
      some ("http://plex/library/metadata") := by
  decide

/-- Claim C1 counterexample: against the non-smart collection whose
membership is exactly {"100"}, AddToCollection with the single requested
ID "100" — already present — still issues a PUT mutation: the batch is not
short-circuited and the current membership is never even fetched. -/
theorem addToCollection_counterexample :
    sampleNonSmart.IsSmartCollection = false ∧
    srvNonSmart.membership = [("100")] ∧
    (AddToCollection srvNonSmart 13 [("100")]).1 = Except.ok () ∧
    ((AddToCollection srvNonSmart 13 [("100")]).2.filter (fun r => r.isMutation)) =
      [addItemsRequest 13 ("abc123") [("100")]] :=
  ⟨rfl, rfl, rfl, rfl⟩

/-- Claim C1 (amended): for every non-smart collection, AddToCollection
with a non-empty requested list always issues exactly one bulk PUT
mutation referencing all requested IDs — the membership is not fetched and
already-present IDs are not filtered out — and only the empty requested
list is short-circuited after the detail fetch with no mutation issued. -/
theorem addToCollection_always_mutates (srv : PlexServer) (cid : Int) (ids : List String)
    (hns : srv.coll.IsSmartCollection = false) :
    (ids ≠ [] →
      AddToCollection srv cid ids =
        (Except.ok (), [getCollectionRequest cid, identityRequest,
          addItemsRequest cid srv.machineID ids])) ∧
    AddToCollection srv cid [] = (Except.ok (), [getCollectionRequest cid]) := by
  constructor
  · intro hne
    cases ids with
    | nil => exact absurd rfl hne
    | cons x xs => simp [AddToCollection, hns]
  · simp [AddToCollection, hns]

/-- Witness for the amended claim C1 at concrete inputs. -/
theorem addToCollection_always_mutates_witness :
    AddToCollection srvNonSmart 13 [("101"), ("102")] =
      (Except.ok (), [getCollectionRequest 13, identityRequest,
        addItemsRequest 13 srvNonSmart.machineID [("101"), ("102")]]) ∧
    AddToCollection srvNonSmart 13 [] = (Except.ok (), [getCollectionRequest 13]) :=
  ⟨(addToCollection_always_mutates srvNonSmart 13 [("101"), ("102")] (by decide)).1
      (by decide),
   (addToCollection_always_mutates srvNonSmart 13 [("103")] (by decide)).2⟩

/-- Claim C3 counterexample: against the non-smart collection whose
membership is exactly {"100"}, RemoveFromCollection with the single absent
ID "999" returns no error — the 404 answered to the DELETE is tolerated —
but it does issue a DELETE mutation: no membership check short-circuits
the batch. -/
theorem removeFromCollection_counterexample :
    srvNonSmart.membership.contains ("999") = false ∧
    (RemoveFromCollection srvNonSmart 13 [("999")]).1 = Except.ok () ∧
    ((RemoveFromCollection srvNonSmart 13 [("999")]).2.filter (fun r => r.isMutation)) =
      [deleteItemRequest 13 ("999")] :=
  ⟨rfl, rfl, rfl⟩

/-- Claim C3 (amended): for every non-smart collection, calling
RemoveFromCollection with a single requested ID absent from the current
membership returns no error — the per-item DELETE is answered with 404,
which is tolerated — but it does issue that DELETE request; the source
fetches no membership and performs no short-circuit. -/
theorem removeFromCollection_absent_tolerated (srv : PlexServer) (cid : Int) (x : String)
    (hns : srv.coll.IsSmartCollection = false)
    (habs : srv.membership.contains x = false) :
    RemoveFromCollection srv cid [x] =
      (Except.ok (), [getCollectionRequest cid, deleteItemRequest cid x]) := by
  have h404 : MatchStatusCodes 404 = true := by decide
  have hb : ((404 : Nat) != 404) = false := by decide
  have hmem : x ∉ srv.membership := by simpa using habs
  simp [RemoveFromCollection, hns, removeItemsLoop, habs, hmem, h404, hb]

/-- Witness for the amended claim C3 at concrete inputs. -/
theorem removeFromCollection_absent_tolerated_witness :
    RemoveFromCollection srvNonSmart 14 [("998")] =
      (Except.ok (), [getCollectionRequest 14, deleteItemRequest 14 ("998")]) :=
  removeFromCollection_absent_tolerated srvNonSmart 14 ("998") (by decide) (by decide)

/-- Claim C4 counterexample: UpdateSmartCollection on a non-smart
collection does fail with the distinct capability error, but only after
the initial detail fetch: the request trace contains one HTTP round trip,
not zero. -/
theorem updateSmartCollection_counterexample :
    (UpdateSmartCollection srvNonSmart 13
        ("http://plex/library/sections/1/all?genre=action")).1 =
      Except.error ("cannot update smart filter for a non-smart collection") ∧
    (UpdateSmartCollection srvNonSmart 13
        ("http://plex/library/sections/1/all?genre=action")).2 =
      [getCollectionRequest 13] :=
  ⟨rfl, rfl⟩

/-- Claim C4 (amended): on every non-smart collection,
UpdateSmartCollection fails with the distinct locally raised capability
error immediately after the initial collection detail fetch and before any
further HTTP request: the trace is exactly the detail GET, so no
validation read and no update PUT is ever issued. -/
theorem updateSmartCollection_capability (srv : PlexServer) (cid : Int) (uri : String)
    (hns : srv.coll.IsSmartCollection = false) :
    UpdateSmartCollection srv cid uri =
      (Except.error ("cannot update smart filter for a non-smart collection"),
       [getCollectionRequest cid]) := by
  simp [UpdateSmartCollection, hns]

/-- Witness for the amended claim C4 at concrete inputs. -/
theorem updateSmartCollection_capability_witness :
    UpdateSmartCollection srvNonSmart 15 ("http://plex/library/sections/1/all?x=1") =
      (Except.error ("cannot update smart filter for a non-smart collection"),
       [getCollectionRequest 15]) :=
  updateSmartCollection_capability srvNonSmart 15
    ("http://plex/library/sections/1/all?x=1") (by decide)

/-- Claim C5: on every collection whose IsSmartCollection is true, each of
AddToCollection, RemoveFromCollection and MoveCollectionItem returns its
capability error, and the request trace is exactly the initial detail
fetch: zero network calls beyond it, in particular no mutation request. -/
theorem smart_capability_rejection (srv : PlexServer) (cid : Int) (ids : List String)
    (x a : String) (hs : srv.coll.IsSmartCollection = true) :
    AddToCollection srv cid ids =
      (Except.error ("cannot manually add items to a smart collection"),
       [getCollectionRequest cid]) ∧
    RemoveFromCollection srv cid ids =
      (Except.error ("cannot manually remove items from a smart collection"),
       [getCollectionRequest cid]) ∧
    MoveCollectionItem srv cid x a =
      (Except.error ("cannot manually move items in a smart collection"),
       [getCollectionRequest cid]) := by
  refine ⟨?_, ?_, ?_⟩ <;>
    simp [AddToCollection, RemoveFromCollection, MoveCollectionItem, hs]

/-- Witness for claim C5 at concrete inputs. -/
theorem smart_capability_rejection_witness :
    AddToCollection srvSmart 7 [("1")] =
      (Except.error ("cannot manually add items to a smart collection"),
       [getCollectionRequest 7]) ∧
    RemoveFromCollection srvSmart 7 [("1")] =
      (Except.error ("cannot manually remove items from a smart collection"),
       [getCollectionRequest 7]) ∧
    MoveCollectionItem srvSmart 7 ("2") ("3") =
      (Except.error ("cannot manually move items in a smart collection"),
       [getCollectionRequest 7]) :=
  smart_capability_rejection srvSmart 7 [("1")] ("2") ("3") (by decide)

/-- Claim C9: in AddToCollection and RemoveFromCollection the capability
check precedes the empty-batch short-circuit: a smart collection with an
empty requested list gets the capability error (after the detail fetch),
while a non-smart collection with an empty list returns success with no
mutation request issued — the trace is just the detail fetch. -/
theorem capability_before_empty_batch (srv : PlexServer) (cid : Int) :
    (srv.coll.IsSmartCollection = true →
      AddToCollection srv cid [] =
        (Except.error ("cannot manually add items to a smart collection"),
         [getCollectionRequest cid]) ∧
      RemoveFromCollection srv cid [] =
        (Except.error ("cannot manually remove items from a smart collection"),
         [getCollectionRequest cid])) ∧
    (srv.coll.IsSmartCollection = false →
      AddToCollection srv cid [] = (Except.ok (), [getCollectionRequest cid]) ∧
      RemoveFromCollection srv cid [] = (Except.ok (), [getCollectionRequest cid])) := by
  constructor
  · intro hs
    constructor <;> simp [AddToCollection, RemoveFromCollection, hs]
  · intro hns
    constructor <;> simp [AddToCollection, RemoveFromCollection, hns]

/-- Witness for claim C9, at a concrete smart server for the first
implication and a concrete non-smart server for the second. -/
theorem capability_before_empty_batch_witness :
    (AddToCollection srvSmart 7 [] =
        (Except.error ("cannot manually add items to a smart collection"),
         [getCollectionRequest 7]) ∧
      RemoveFromCollection srvSmart 7 [] =
        (Except.error ("cannot manually remove items from a smart collection"),
         [getCollectionRequest 7])) ∧
    (AddToCollection srvNonSmart 13 [] = (Except.ok (), [getCollectionRequest 13]) ∧
      RemoveFromCollection srvNonSmart 13 [] =
        (Except.ok (), [getCollectionRequest 13])) :=
  ⟨(capability_before_empty_batch srvSmart 7).1 (by decide),
   (capability_before_empty_batch srvNonSmart 13).2 (by decide)⟩

/-- Claim C10: identity resolution after creation consults the response
body only when the Location header is the empty string — for a nonempty
header the result does not depend on the body at all — and for every
nonempty Location header of the form /library/collections/{seg} whose
trailing segment is not a decimal integer, the resolution returns an
error instead of falling back to the body. -/
theorem create_identity_resolution (loc seg : List Char) (b b2 : List Collection)
    (hloc : loc ≠ []) (hseg : seg ≠ [])
    (hns : seg.all (fun c => !c.isWhitespace) = true)
    (hbad : goAtoi seg = none) :
    resolveCreatedCollectionID loc b = resolveCreatedCollectionID loc b2 ∧
    (∃ msg, resolveCreatedCollectionID (locationStem ++ seg) b = Except.error msg) := by
  constructor
  · have hl : loc.isEmpty = false := by
      cases loc with
      | nil => exact absurd rfl hloc
      | cons c cs => rfl
    simp [resolveCreatedCollectionID, hl]
  · have hne : (locationStem ++ seg).isEmpty = false := by
      cases hcase : locationStem ++ seg with
      | nil => exact absurd (List.append_eq_nil.mp hcase).1 (by decide)
      | cons c cs => rfl
    have hpre : leadsWith (locationStem ++ seg) locationStem = true := by
      simp only [leadsWith, List.isPrefixOf_iff_prefix]
      exact List.prefix_append _ _
    have hdrop : (locationStem ++ seg).drop locationStem.length = seg :=
      List.drop_left _ _
    have hdw : seg.dropWhile (fun c => c.isWhitespace) = seg :=
      dropWhile_eq_self_of_all_not seg hns
    have htw : seg.takeWhile (fun c => !c.isWhitespace) = seg :=
      takeWhile_eq_self_of_all seg hns
    have hemp : seg.isEmpty = false := by
      cases seg with
      | nil => exact absurd rfl hseg
      | cons c cs => rfl
    refine ⟨("error converting collection ID to int"), ?_⟩
    simp [resolveCreatedCollectionID, hne, scanLocationID, hpre, hdrop, hdw, htw,
      hemp, hbad]

/-- Witness for claim C10: a nonempty header ignores two different bodies,
and the header /library/collections/abc resolves to an error. -/
theorem create_identity_resolution_witness :
    resolveCreatedCollectionID (("/x").toList) [] =
      resolveCreatedCollectionID (("/x").toList) [{ ratingKey := ("5") }] ∧
    (∃ msg, resolveCreatedCollectionID (locationStem ++ (("abc").toList)) [] =
      Except.error msg) :=
  create_identity_resolution (("/x").toList) (("abc").toList) []
    [{ ratingKey := ("5") }] (by decide) (by decide) (by decide) (by decide)

end Plexgo
